import Mathlib

/-!
Shallow embedding of `src/main.py` of the `unitedrubber0-ops/feasibility`
repository (a Flask document-to-report service).

Modelling conventions:
* Python dicts whose insertion order is observable are association lists;
  `dict.update` is last-write-wins (`dictUpdate`).
* Python `None`-or-string values are `Option String`.
* The external Gemini client (`model.generate_content` followed by
  markdown-fence stripping and `json.loads` validation) is an oracle
  function supplied as a parameter; one oracle application models one
  `generate_content` call together with its validation, and a failure
  value models any exception raised by that call (quota / transient /
  JSON-parse / missing-credential).  Handlers additionally return the
  number of oracle calls performed, so that claims about call counts are
  statable.
* Third-party file parsing (PyPDF2, python-docx, fitz, PIL) is abstracted
  as handler inputs holding the parse RESULT (e.g. the per-page text list
  a PDF yields, or `none` when `extract_text_from_docx` swallows an
  exception and returns `None`), mirroring the values those helpers hand
  to the in-scope logic.
* `str.format` on the extraction prompt template is embedded as a token
  list (literal runs / `\x7bpage_text\x7d` named field / the bare `\x7b\x7d`
  positional field at instruction 6) interpreted by `pyFormatKw`, which
  raises `IndexError` on a positional field when no positional arguments
  were supplied — exactly CPython's behaviour.
-/

/-- Failure modes of one `model.generate_content` + fence-strip + `json.loads`
round trip, as distinguished by the claims: quota/rate-limit errors,
other transient server errors, JSON-validation failures, and the
missing-credential failure raised when `genai.configure` never ran. -/
inductive OracleFailure
  | rateLimit
  | transient
  | badJson
  | auth
deriving DecidableEq

/-- Model of `str(e)` for the modelled exception values (the Python code
interpolates exception text into some error messages). -/
def oracleFailureText : OracleFailure → String
  | .rateLimit => "429 Resource has been exhausted"
  | .transient => "503 Service Unavailable"
  | .badJson => "Expecting value: line 1 column 1 (char 0)"
  | .auth => "Your default credentials were not found."

/-- The `table` object of a per-page extraction result:
`\x7b"columns": [...], "rows": [[...]]\x7d`. -/
structure TableJson where
  columns : List String
  rows : List (List String)
deriving DecidableEq

/-- One page's parsed extraction result `\x7b"header": ..., "table": ...\x7d`.
`header = []` models an absent or empty (falsy) header object; `table = none`
models an absent or empty (falsy) table object. -/
structure PageResult where
  header : List (String × String)
  table : Option TableJson
deriving DecidableEq

/-- The mutable aggregation state of `generate_report_handler`:
`aggregated_header`, `aggregated_rows`, `table_columns` (lines 109-111). -/
structure AggState where
  header : List (String × String)
  rows : List (List String)
  columns : Option (List String)
deriving DecidableEq

/-- The final report value `\x7b"header": ..., "table": \x7b"columns": ...,
"rows": ...\x7d\x7d` (line 152). -/
structure Report where
  header : List (String × String)
  columns : List String
  rows : List (List String)
deriving DecidableEq

/-- Python `dict` single-key assignment: overwrite in place if the key
exists, else append. -/
def dictInsert (d : List (String × String)) (k v : String) : List (String × String) :=
  if d.any (fun kv => kv.1 = k) then
    d.map (fun kv => if kv.1 = k then (k, v) else kv)
  else d ++ [(k, v)]

/-- Python `dict.update`: later keys overwrite earlier ones. -/
def dictUpdate (d u : List (String × String)) : List (String × String) :=
  u.foldl (fun acc kv => dictInsert acc kv.1 kv.2) d

/-- Lines 142-148: merge one page's parsed result into the aggregation
state.  The header is merged whenever the page's header object is truthy;
the table block runs only when the page's table object is truthy AND its
`rows` list is truthy (non-empty), and only then may `table_columns` be
adopted (when still unset and the page's `columns` list is non-empty). -/
def mergePage (st : AggState) (p : PageResult) : AggState :=
  let header1 := if p.header.isEmpty then st.header else dictUpdate st.header p.header
  match p.table with
  | none => ⟨header1, st.rows, st.columns⟩
  | some t =>
    if t.rows.isEmpty then ⟨header1, st.rows, st.columns⟩
    else
      let cols1 := if st.columns.isNone && !t.columns.isEmpty then some t.columns else st.columns
      ⟨header1, st.rows ++ t.rows, cols1⟩

/-- Initial aggregation state (lines 109-111):
`aggregated_header = \x7b\x7d`, `aggregated_rows = []`, `table_columns = None`. -/
def aggInit : AggState := ⟨[], [], none⟩

/-- The pure denotation of the merge loop body applied to a list of
successfully parsed page results, starting from the initial state. -/
def mergePages (ps : List PageResult) : AggState :=
  ps.foldl mergePage aggInit

/-- Line 150 and 152: default never-set columns to `[]` and assemble the
final report object. -/
def finalizeReport (st : AggState) : Report :=
  ⟨st.header, st.columns.getD [], st.rows⟩

/-- The whitespace characters Python's `str.strip()` removes (ASCII part). -/
def pyIsSpace (c : Char) : Bool :=
  c = ' ' || c = '\t' || c = '\n' || c = '\r' || c = '\x0b' || c = '\x0c'

/-- Truth of Python `not page_text.strip()`: the string is empty or
whitespace-only. -/
def pyIsBlank (s : String) : Bool :=
  s.toList.all pyIsSpace

/-- A token of a Python `str.format` template: a literal run, a named
replacement field, or a bare positional replacement field `\x7b\x7d`. -/
inductive FmtTok
  | lit (s : String)
  | namedField (nm : String)
  | autoField
deriving DecidableEq

/-- Python-level exceptions that the modelled handlers can observe. -/
inductive PyErr
  | indexError
  | keyError
  | attributeError
  | typeError
  | oracleFail (e : OracleFailure)
deriving DecidableEq

/-- Keyword-argument lookup for `str.format`. -/
def lookupKw (kwargs : List (String × String)) (nm : String) : Option String :=
  (kwargs.find? (fun kv => kv.1 = nm)).map (fun kv => kv.2)

/-- Python `template.format(**kwargs)` with no positional arguments:
literal runs are copied, named fields are looked up (KeyError when
missing), and a bare positional field raises
`IndexError: Replacement index 0 out of range for positional args tuple`
because the positional-argument tuple is empty. -/
def pyFormatKw : List FmtTok → List (String × String) → Except PyErr String
  | [], _ => .ok ""
  | .lit s :: rest, kw => (pyFormatKw rest kw).map (fun r => s ++ r)
  | .namedField nm :: rest, kw =>
    match lookupKw kw nm with
    | some v => (pyFormatKw rest kw).map (fun r => v ++ r)
    | none => .error .keyError
  | .autoField :: _, _ => .error .indexError

/-- The `prompt_extract_template` of lines 114-130, tokenised for
`str.format`.  It has exactly two replacement fields: the named field
`\x7bpage_text\x7d` (line 119) and — inside instruction 6, which shows the
required empty-object literal — a bare positional field `\x7b\x7d` (line 128). -/
def prompt_extract_template : List FmtTok :=
  [ .lit "\n        You are a highly robust data extraction assistant. Your task is to analyze potentially messy OCR text from a DOCUMENT PAGE and extract its header and table data into a perfect JSON format.\n\n        **DOCUMENT PAGE TEXT:**\n        ---\n        ",
    .namedField "page_text",
    .lit "\n        ---\n\n        **CRITICAL INSTRUCTIONS:**\n        1.  Your primary goal is to return a **complete and valid JSON object**. Do not stop halfway.\n        2.  The JSON must have two top-level keys: \"header\" (an object) and \"table\" (an object).\n        3.  The \"table\" object must contain \"columns\" (a list of strings) and \"rows\" (a list of lists of strings).\n        4.  **Handling Multi-line Table Rows:** Some rows in the source text span multiple lines (e.g., a \"Description\" parameter). You MUST consolidate all parts of a single logical row into one list in the JSON \"rows\" array.\n        5.  If no table exists on the page, the \"rows\" array must be an empty list `[]`.\n        6.  If no header data exists, the \"header\" object must be an empty object `",
    .autoField,
    .lit "`.\n        7.  Do not include this instructional text in your response. Your response must only be the raw JSON object.\n        " ]

/-- Lines 35-47 (`generate_with_retry`), with explicit fuel equal to the
remaining iterations of `for attempt in range(max_retries)` and an output
pair (outcome, number of `generate_content` calls made).  The outcome is
`none` exactly when the loop body never runs (only possible for
`max_retries = 0`, where Python falls off the loop and returns `None`);
`some (.ok a)` models returning the validated text, `some (.error e)`
models `raise e` on the final attempt.  `time.sleep(retry_delay)` between
attempts is a pure no-op here. -/
def retryGo (oracle : Nat → Except ε α) (max_retries : Nat) : Nat → Nat → Option (Except ε α) × Nat
  | 0, _ => (none, 0)
  | fuel + 1, attempt =>
    match oracle attempt with
    | .ok a => (some (.ok a), 1)
    | .error e =>
      if attempt < max_retries - 1 then
        let r := retryGo oracle max_retries fuel (attempt + 1)
        (r.1, r.2 + 1)
      else (some (.error e), 1)

/-- `generate_with_retry(model, prompt, max_retries, retry_delay)`: run the
retry loop from attempt 0.  The oracle argument already closes over the
model and the prompt; its `Nat` argument is the attempt index. -/
def generate_with_retry (oracle : Nat → Except ε α) (max_retries : Nat) : Option (Except ε α) × Nat :=
  retryGo oracle max_retries max_retries 0

/-- Lines 132-148: the per-page aggregation loop of
`generate_report_handler`, over the `source_pages` list (whose elements
are Python strings or `None`).  Per page, in order: `page_text.strip()`
raises AttributeError when the page is `None`; a blank page is skipped;
otherwise the prompt is built with
`prompt_extract_template.format(page_text=page_text)` (which can raise),
`generate_with_retry` is called with the default bound 3, and the parsed
result is merged.  Any raised exception aborts the loop.  The second
component counts `generate_content` calls. -/
def runPages (oracle : String → Nat → Except OracleFailure PageResult) :
    List (Option String) → AggState → Except PyErr AggState × Nat
  | [], st => (.ok st, 0)
  | none :: _, _ => (.error .attributeError, 0)
  | some s :: rest, st =>
    if pyIsBlank s then runPages oracle rest st
    else
      match pyFormatKw prompt_extract_template [("page_text", s)] with
      | .error e => (.error e, 0)
      | .ok prompt =>
        match generate_with_retry (oracle prompt) 3 with
        | (some (.ok p), n) =>
          let r := runPages oracle rest (mergePage st p)
          (r.1, r.2 + n)
        | (some (.error e), n) => (.error (.oracleFail e), n)
        | (none, n) => (.error .typeError, n)

/-- The Page Aggregator: the loop of lines 132-148 started from the
initial state of lines 109-111. -/
def page_aggregate (oracle : String → Nat → Except OracleFailure PageResult)
    (pages : List (Option String)) : Except PyErr AggState × Nat :=
  runPages oracle pages aggInit

/-- The source-file kinds distinguished by lines 88-93, each carrying the
result the corresponding extraction helper produced: a PDF yields a list
of page texts or `None` (when `extract_text_from_pdf_paginated` caught an
exception), a DOCX yields a single text or `None` (when
`extract_text_from_docx` caught an exception), anything else yields the
bytes decoded with `decode("utf-8", errors="ignore")`. -/
inductive SourceKind
  | pdf (extracted : Option (List String))
  | docx (extracted : Option String)
  | plain (decoded : String)

/-- Lines 87-93: the `source_pages` value, `none` standing for Python
`None` (a failed paginated PDF extraction assigns `None` to the whole
variable), and list elements standing for str-or-None pages. -/
def source_pages_of : SourceKind → Option (List (Option String))
  | .pdf none => none
  | .pdf (some l) => some (l.map some)
  | .docx r => some [r]
  | .plain s => some [some s]

/-- Decidable equality for `Except`, needed to evaluate concrete handler
outcomes with `decide`. -/
instance instDecEqExcept {ε α : Type} [DecidableEq ε] [DecidableEq α] : DecidableEq (Except ε α) :=
  fun x y =>
    match x, y with
    | .error a, .error b =>
      if h : a = b then isTrue (congrArg Except.error h)
      else isFalse (fun hh => h (Except.error.inj hh))
    | .ok a, .ok b =>
      if h : a = b then isTrue (congrArg Except.ok h)
      else isFalse (fun hh => h (Except.ok.inj hh))
    | .error _, .ok _ => isFalse (fun hh => Except.noConfusion hh)
    | .ok _, .error _ => isFalse (fun hh => Except.noConfusion hh)

/-- A handler outcome: the JSON response (success report or
`(error message, HTTP status)`) plus the number of oracle calls made. -/
structure HandlerResult where
  response : Except (String × Nat) Report
  oracleCalls : Nat
deriving DecidableEq

/-- Lines 77-159, `generate_report_handler`, for a request whose file was
read successfully: compute `source_pages`; `if not source_pages` (None or
empty list) answer the extraction-failure 500; then check the credential
(lines 102-103); then run the aggregation loop; any exception from the
loop is caught by the `except` of lines 157-159 and answered with the one
generic 500. -/
def generate_report_handler (apiKeyPresent : Bool)
    (oracle : String → Nat → Except OracleFailure PageResult)
    (source : SourceKind) : HandlerResult :=
  match source_pages_of source with
  | none => ⟨.error ("Could not extract text from the source file.", 500), 0⟩
  | some pages =>
    if pages.isEmpty then ⟨.error ("Could not extract text from the source file.", 500), 0⟩
    else if !apiKeyPresent then ⟨.error ("Gemini API key is not configured.", 500), 0⟩
    else
      match runPages oracle pages aggInit with
      | (.ok st, n) => ⟨.ok (finalizeReport st), n⟩
      | (.error _, n) => ⟨.error ("Failed to generate report from AI model.", 500), n⟩

/-- The f-string prompt of lines 374-386 (`get_value_for_label_handler`);
it contains no bare positional fields, so building it never raises. -/
def get_value_prompt (source_text label : String) : String :=
  "\n        You are a data extraction specialist. In the following DOCUMENT TEXT, find the label \"" ++ label ++ "\" and return its corresponding value.\n\n        **DOCUMENT TEXT:**\n        ---\n        " ++ source_text ++ "\n        ---\n\n        **INSTRUCTIONS:**\n        Return a single, raw JSON object with two keys: \"parameter\" and \"value\".\n        - \"parameter\" should be the exact label that was found (e.g., \"HOSE_ID\").\n        - \"value\" should be the numerical or text value associated with that label (e.g., \"24.6\").\n        "

/-- Lines 345-396, `get_value_for_label_handler`, for a request whose file
was opened successfully and whose fitz text extraction yielded
`source_text`.  Note: this handler never checks `GEMINI_API_KEY`; with the
credential absent every `generate_content` attempt raises inside
`generate_with_retry`, and the exhausted failure is answered by the
`except` of lines 394-396 with `"AI processing failed: " + str(e)`. -/
def get_value_for_label_handler (apiKeyPresent : Bool)
    (oracle : String → Nat → Except OracleFailure String)
    (source_text label : String) : Except (String × Nat) String × Nat :=
  if source_text.isEmpty then (.error ("Could not extract text from source file.", 500), 0)
  else
    let prompt := get_value_prompt source_text label
    let eff : Nat → Except OracleFailure String :=
      fun attempt => if apiKeyPresent then oracle prompt attempt else .error .auth
    match generate_with_retry eff 3 with
    | (some (.ok v), n) => (.ok v, n)
    | (some (.error e), n) => (.error ("AI processing failed: " ++ oracleFailureText e, 500), n)
    | (none, n) => (.error ("AI processing failed: ", 500), n)

/-- Outcome of the GD&T point-analysis handler: the JSON response (the
parsed feature object abstracted as its JSON text), whether the crop was
rasterized (`page.get_pixmap` reached), and how many `generate_content`
calls were made. -/
structure GdtResult where
  response : Except (String × Nat) String
  rasterized : Bool
  oracleCalls : Nat
deriving DecidableEq

/-- Lines 161-241, `analyze_gdt_at_point_handler`, for a request with all
form fields present whose document `fitz.open` loaded with `page_count`
pages.  The bounds check of lines 180-181 answers 400 before any page
load, crop, rasterization or model call; otherwise the crop is rasterized
and the model is called once (no retry loop on this path); any exception
is answered by lines 239-241 with `"Failed to analyze GD&T feature: " +
str(e)`.  This handler never checks `GEMINI_API_KEY` either. -/
def analyze_gdt_at_point_handler (apiKeyPresent : Bool)
    (oracle : Except OracleFailure String)
    (page_count : Nat) (page_num : Int) : GdtResult :=
  if page_num < 1 ∨ page_num > (page_count : Int) then
    ⟨.error ("Invalid page number", 400), false, 0⟩
  else
    match (if apiKeyPresent then oracle else .error .auth) with
    | .ok v => ⟨.ok v, true, 1⟩
    | .error e => ⟨.error ("Failed to analyze GD&T feature: " ++ oracleFailureText e, 500), true, 1⟩

/-- The request body of `/export-docx`: a `header` mapping (empty list for
an absent or empty, hence falsy, object) and an optional `table` object
(`none` for absent or falsy). -/
structure ExportIn where
  header : List (String × String)
  table : Option TableJson
deriving DecidableEq

/-- A rendered python-docx grid table: the header row of column names and
the data rows as actually stored cell by cell. -/
structure DocxTable where
  headerRow : List String
  dataRows : List (List String)
deriving DecidableEq

/-- The document `export_docx_handler` builds: one heading, the paragraph
list (one `"key: value"` line per header entry, then the empty
`add_paragraph()` of line 254), and at most one table. -/
structure DocxDoc where
  heading : String
  paragraphs : List String
  table : Option DocxTable
deriving DecidableEq

/-- Writing one data row into a freshly added table row (lines 265-268):
the new row has `len(columns)` cells initialised to `""`; cell `i` is set
for each entry of the data row; an entry beyond the column count raises
IndexError (`row_cells[i]` out of range). -/
def fillRow (ncols : Nat) (row : List String) : Except Unit (List String) :=
  if row.length ≤ ncols then .ok (row ++ List.replicate (ncols - row.length) "")
  else .error ()

/-- Lines 244-280, `export_docx_handler`: heading, header paragraphs (only
when the header object is truthy), one empty paragraph, and — only when
both `columns` and `rows` are truthy — a grid table whose first row holds
the column names followed by one row per data row.  Any exception
(e.g. the IndexError of an over-long row) is answered by lines 278-280. -/
def export_docx_handler (data : ExportIn) : Except (String × Nat) DocxDoc :=
  let paragraphs :=
    (if data.header.isEmpty then [] else data.header.map (fun kv => kv.1 ++ ": " ++ kv.2)) ++ [""]
  match data.table with
  | none => .ok ⟨"Inspection Report", paragraphs, none⟩
  | some t =>
    if !t.columns.isEmpty && !t.rows.isEmpty then
      match t.rows.mapM (fillRow t.columns.length) with
      | .ok rows2 => .ok ⟨"Inspection Report", paragraphs, some ⟨t.columns, rows2⟩⟩
      | .error _ => .error ("Failed to create DOCX file", 500)
    else .ok ⟨"Inspection Report", paragraphs, none⟩

/-- A Unicode scalar value: what each character of a well-formed decoded
string must be (below 0x110000 and not a surrogate). -/
def isUnicodeScalar (c : Nat) : Prop :=
  c < 0x110000 ∧ (c < 0xD800 ∨ 0xDFFF < c)

instance (c : Nat) : Decidable (isUnicodeScalar c) := by
  unfold isUnicodeScalar; infer_instance

/-- Lower bound for the second byte of a three-byte UTF-8 sequence
(0xE0 forbids overlong encodings). -/
def cont3lo (b : Nat) : Nat := if b = 0xE0 then 0xA0 else 0x80

/-- Upper bound for the second byte of a three-byte UTF-8 sequence
(0xED forbids surrogate code points). -/
def cont3hi (b : Nat) : Nat := if b = 0xED then 0x9F else 0xBF

/-- Lower bound for the second byte of a four-byte UTF-8 sequence
(0xF0 forbids overlong encodings). -/
def cont4lo (b : Nat) : Nat := if b = 0xF0 then 0x90 else 0x80

/-- Upper bound for the second byte of a four-byte UTF-8 sequence
(0xF4 caps code points at 0x10FFFF). -/
def cont4hi (b : Nat) : Nat := if b = 0xF4 then 0x8F else 0xBF

/-- Line 93, `source_stream.read().decode("utf-8", errors="ignore")`:
CPython's strict UTF-8 decoder with the `ignore` error handler.  Valid
sequences decode to their code point; an invalid or truncated sequence is
dropped (the maximal valid subpart is skipped) and decoding continues
with the next byte; decoding never fails and the result is a (possibly
empty) sequence of code points. -/
def utf8DecodeIgnore : List Nat → List Nat
  | [] => []
  | b :: rest =>
    if b ≤ 0x7F then b :: utf8DecodeIgnore rest
    else if 0xC2 ≤ b ∧ b ≤ 0xDF then
      match hr : rest with
      | [] => []
      | b2 :: rest2 =>
        if 0x80 ≤ b2 ∧ b2 ≤ 0xBF then
          ((b - 0xC0) * 64 + (b2 - 0x80)) :: utf8DecodeIgnore rest2
        else utf8DecodeIgnore rest
    else if 0xE0 ≤ b ∧ b ≤ 0xEF then
      match hr : rest with
      | [] => []
      | b2 :: rest2 =>
        if cont3lo b ≤ b2 ∧ b2 ≤ cont3hi b then
          match hr2 : rest2 with
          | [] => []
          | b3 :: rest3 =>
            if 0x80 ≤ b3 ∧ b3 ≤ 0xBF then
              ((b - 0xE0) * 4096 + (b2 - 0x80) * 64 + (b3 - 0x80)) :: utf8DecodeIgnore rest3
            else utf8DecodeIgnore rest2
        else utf8DecodeIgnore rest
    else if 0xF0 ≤ b ∧ b ≤ 0xF4 then
      match hr : rest with
      | [] => []
      | b2 :: rest2 =>
        if cont4lo b ≤ b2 ∧ b2 ≤ cont4hi b then
          match hr2 : rest2 with
          | [] => []
          | b3 :: rest3 =>
            if 0x80 ≤ b3 ∧ b3 ≤ 0xBF then
              match hr3 : rest3 with
              | [] => []
              | b4 :: rest4 =>
                if 0x80 ≤ b4 ∧ b4 ≤ 0xBF then
                  ((b - 0xF0) * 262144 + (b2 - 0x80) * 4096 + (b3 - 0x80) * 64 + (b4 - 0x80)) ::
                    utf8DecodeIgnore rest4
                else utf8DecodeIgnore rest3
            else utf8DecodeIgnore rest2
        else utf8DecodeIgnore rest
    else utf8DecodeIgnore rest
termination_by l => l.length
decreasing_by all_goals (subst_vars; simp only [List.length_cons]; omega)

/-- Formatting the extraction prompt always raises IndexError, whatever the
page text: the template's bare positional field has no positional argument
to draw from. -/
theorem template_format_err (s : String) :
    pyFormatKw prompt_extract_template [("page_text", s)] = .error .indexError := rfl

/-- Retry loop, all attempts failing: the last attempt re-raises. -/
theorem retryGo_all_fail {ε α : Type} (oracle : Nat → Except ε α) (e : Nat → ε) (m : Nat)
    (he : ∀ i, oracle i = .error (e i)) :
    ∀ (fuel attempt : Nat), 1 ≤ fuel → attempt + fuel = m →
      retryGo oracle m fuel attempt = (some (.error (e (m - 1))), fuel) := by
  intro fuel
  induction fuel with
  | zero => intro attempt h1 _; omega
  | succ k ih =>
    intro attempt _ hm
    simp only [retryGo, he attempt]
    by_cases hk : k = 0
    · subst hk
      have hlt : ¬ attempt < m - 1 := by omega
      simp only [if_neg hlt]
      have ha : attempt = m - 1 := by omega
      rw [ha]
    · have hlt : attempt < m - 1 := by omega
      simp only [if_pos hlt]
      rw [ih (attempt + 1) (by omega) (by omega)]

/-- Retry loop, failures then a success on the final attempt. -/
theorem retryGo_fail_then_ok {ε α : Type} (oracle : Nat → Except ε α) (e : Nat → ε) (v : α)
    (m : Nat) (hfail : ∀ i, i < m - 1 → oracle i = .error (e i)) (hok : oracle (m - 1) = .ok v) :
    ∀ (fuel attempt : Nat), 1 ≤ fuel → attempt + fuel = m →
      retryGo oracle m fuel attempt = (some (.ok v), fuel) := by
  intro fuel
  induction fuel with
  | zero => intro attempt h1 _; omega
  | succ k ih =>
    intro attempt _ hm
    by_cases hk : k = 0
    · subst hk
      have ha : attempt = m - 1 := by omega
      subst ha
      simp only [retryGo, hok]
    · have hlt : attempt < m - 1 := by omega
      simp only [retryGo, hfail attempt hlt, if_pos hlt]
      rw [ih (attempt + 1) (by omega) (by omega)]

/-- Claim C2: with `max_retries = m ≥ 1`, an oracle failing on the first
`m - 1` attempts and succeeding on attempt `m - 1` makes
`generate_with_retry` return the success value after exactly `m` calls;
an oracle failing on every attempt makes it raise the last failure after
exactly `m` calls and no more. -/
theorem generate_with_retry_bound {ε α : Type} (m : Nat) (hm : 1 ≤ m)
    (o1 o2 : Nat → Except ε α) (v : α) (e1 e2 : Nat → ε)
    (h1 : ∀ i, i < m - 1 → o1 i = .error (e1 i)) (h1s : o1 (m - 1) = .ok v)
    (h2 : ∀ i, o2 i = .error (e2 i)) :
    generate_with_retry o1 m = (some (.ok v), m) ∧
    generate_with_retry o2 m = (some (.error (e2 (m - 1))), m) := by
  constructor
  · exact retryGo_fail_then_ok o1 e1 v m h1 h1s m 0 hm (by omega)
  · exact retryGo_all_fail o2 e2 m h2 m 0 hm (by omega)

/-- Witness for C2 at `m = 3`: two failures then a success returns the
value in 3 calls; three failures raise the last error after 3 calls. -/
theorem generate_with_retry_bound_witness :
    generate_with_retry (fun i => if i < 2 then (Except.error i : Except Nat Nat) else Except.ok 7) 3
      = (some (Except.ok 7), 3) ∧
    generate_with_retry (fun i => (Except.error i : Except Nat Nat)) 3
      = (some (Except.error 2), 3) :=
  generate_with_retry_bound 3 (by omega)
    (fun i => if i < 2 then (Except.error i : Except Nat Nat) else Except.ok 7)
    (fun i => (Except.error i : Except Nat Nat)) 7 (fun i => i) (fun i => i)
    (fun i hi => if_pos hi) rfl (fun i => rfl)

/-- The aggregation loop skips every blank page untouched: no oracle call,
state unchanged. -/
theorem runPages_all_blank (oracle : String → Nat → Except OracleFailure PageResult) :
    ∀ (texts : List String) (st : AggState), (∀ t ∈ texts, pyIsBlank t = true) →
      runPages oracle (texts.map some) st = (.ok st, 0) := by
  intro texts
  induction texts with
  | nil => intro st _; rfl
  | cons t ts ih =>
    intro st hb
    have hbt : pyIsBlank t = true := hb t (by simp)
    simp only [List.map_cons, runPages, hbt, if_true]
    exact ih st (fun x hx => hb x (by simp [hx]))

/-- Claim C5: for every all-blank page sequence the aggregation loop
returns the untouched initial state with zero oracle invocations, whose
finalisation is the empty report; at the handler level (with the
credential configured and a non-empty page list) the response is exactly
the empty report. -/
theorem blank_pages_empty_report (oracle : String → Nat → Except OracleFailure PageResult)
    (texts : List String) (hb : ∀ t ∈ texts, pyIsBlank t = true) :
    page_aggregate oracle (texts.map some) = (.ok aggInit, 0) ∧
    finalizeReport aggInit = ⟨[], [], []⟩ ∧
    (texts.isEmpty = false →
      generate_report_handler true oracle (.pdf (some texts)) = ⟨.ok ⟨[], [], []⟩, 0⟩) := by
  refine ⟨runPages_all_blank oracle texts aggInit hb, rfl, ?_⟩
  intro hne
  have hmap : (texts.map some).isEmpty = false := by
    cases texts with
    | nil => simp at hne
    | cons a l => rfl
  simp only [generate_report_handler, source_pages_of, hmap, Bool.false_eq_true, if_false,
    Bool.not_true, runPages_all_blank oracle texts aggInit hb]
  rfl

/-- Witness for C5 on the concrete all-blank page list. -/
theorem blank_pages_empty_report_witness :
    page_aggregate (fun _ _ => Except.error OracleFailure.rateLimit) ((["", " \t"]).map some)
      = (.ok aggInit, 0) ∧
    finalizeReport aggInit = ⟨[], [], []⟩ ∧
    ((["", " \t"] : List String).isEmpty = false →
      generate_report_handler true (fun _ _ => Except.error OracleFailure.rateLimit)
        (.pdf (some ["", " \t"])) = ⟨.ok ⟨[], [], []⟩, 0⟩) :=
  blank_pages_empty_report (fun _ _ => Except.error OracleFailure.rateLimit) ["", " \t"]
    (by decide)

/-- The aggregation loop performs zero oracle calls on every input: blank
pages are skipped, a `None` page raises before the invoker, and for every
non-blank page the prompt formatting raises IndexError first. -/
theorem runPages_zero_calls (oracle : String → Nat → Except OracleFailure PageResult) :
    ∀ (pages : List (Option String)) (st : AggState), (runPages oracle pages st).2 = 0 := by
  intro pages
  induction pages with
  | nil => intro st; rfl
  | cons p rest ih =>
    intro st
    cases p with
    | none => rfl
    | some s =>
      by_cases hb : pyIsBlank s = true
      · simp only [runPages, hb, if_true]
        exact ih st
      · simp only [runPages, hb, Bool.false_eq_true, if_false, template_format_err]

/-- Claim C6 (code defect): the Model Invoker can never exhaust its
retries during aggregation because it is never called — for every oracle,
page list and start state the loop performs zero `generate_content` calls
(the prompt `str.format` raises IndexError on every non-blank page, which
only the blanket `except` of lines 157-159 catches); concretely, a
one-page request with the non-blank text "x" and a permanently
rate-limited oracle is answered with the single generic 500 after zero
oracle calls and no partial report. -/
theorem prompt_format_defect_eval :
    (∀ (oracle : String → Nat → Except OracleFailure PageResult)
        (pages : List (Option String)) (st : AggState),
      (runPages oracle pages st).2 = 0) ∧
    (∀ s : String,
      pyFormatKw prompt_extract_template [("page_text", s)] = .error PyErr.indexError) ∧
    generate_report_handler true (fun _ _ => Except.error OracleFailure.rateLimit)
        (SourceKind.plain "x")
      = ⟨.error ("Failed to generate report from AI model.", 500), 0⟩ :=
  ⟨runPages_zero_calls, template_format_err, by decide⟩

/-- Claim C3 counterexample: a request whose oracle permanently
rate-limits is answered exactly like one whose oracle fails generically —
with the one generic upstream-failure response (500, the fixed message) —
so no distinct "rate limited" status exists. -/
theorem rate_limit_status_counterexample :
    generate_report_handler true (fun _ _ => Except.error OracleFailure.rateLimit)
        (SourceKind.plain "x")
      = generate_report_handler true (fun _ _ => Except.error OracleFailure.transient)
        (SourceKind.plain "x") ∧
    (generate_report_handler true (fun _ _ => Except.error OracleFailure.rateLimit)
        (SourceKind.plain "x")).response
      = .error ("Failed to generate report from AI model.", 500) := by
  constructor
  · rfl
  · rfl

/-- Claim C3 amended: whatever the oracle and the failure kind, every
error response `generate_report_handler` emits past the credential check
is the single generic upstream-failure response
`("Failed to generate report from AI model.", 500)`; rate-limit failures
receive no distinct status. -/
theorem oracle_failure_generic_status
    (oracle : String → Nat → Except OracleFailure PageResult)
    (source : SourceKind) (pages : List (Option String))
    (hsp : source_pages_of source = some pages) (hne : pages.isEmpty = false)
    (r : String × Nat) (n : Nat)
    (h : generate_report_handler true oracle source = ⟨.error r, n⟩) :
    r = ("Failed to generate report from AI model.", 500) := by
  unfold generate_report_handler at h
  rw [hsp] at h
  simp only [hne, Bool.false_eq_true, if_false, Bool.not_true] at h
  rcases hrun : runPages oracle pages aggInit with ⟨res, nn⟩
  rw [hrun] at h
  cases res with
  | ok st => simp at h
  | error e =>
    simp only [HandlerResult.mk.injEq, Except.error.injEq] at h
    exact h.1.symm

/-- Witness for the C3 amended theorem at a concrete rate-limited request. -/
theorem oracle_failure_generic_status_witness :
    (("Failed to generate report from AI model.", 500) : String × Nat)
      = ("Failed to generate report from AI model.", 500) :=
  oracle_failure_generic_status (fun _ _ => Except.error OracleFailure.rateLimit)
    (SourceKind.plain "x") [some "x"] rfl rfl
    ("Failed to generate report from AI model.", 500) 0 (by decide)

/-- Merging one page result only ever appends to the accumulated rows. -/
theorem mergePage_rows_prefix (st : AggState) (p : PageResult) :
    ∃ suf, (mergePage st p).rows = st.rows ++ suf := by
  cases hpt : p.table with
  | none => exact ⟨[], by simp [mergePage, hpt]⟩
  | some t =>
    by_cases hr : t.rows.isEmpty
    · exact ⟨[], by simp [mergePage, hpt, hr]⟩
    · exact ⟨t.rows, by simp [mergePage, hpt, hr]⟩

/-- Once `table_columns` is set, merging further pages never changes it. -/
theorem mergePage_columns_mono (st : AggState) (p : PageResult) (c : List String)
    (h : st.columns = some c) : (mergePage st p).columns = some c := by
  cases hpt : p.table with
  | none => simp [mergePage, hpt, h]
  | some t =>
    by_cases hr : t.rows.isEmpty
    · simp [mergePage, hpt, hr, h]
    · simp [mergePage, hpt, hr, h]

/-- Column persistence over any remaining page results. -/
theorem foldl_mergePage_columns_mono (qs : List PageResult) :
    ∀ (st : AggState) (c : List String), st.columns = some c →
      (qs.foldl mergePage st).columns = some c := by
  induction qs with
  | nil => intro st c h; simpa using h
  | cons q qs ih =>
    intro st c h
    simp only [List.foldl_cons]
    exact ih _ c (mergePage_columns_mono st q c h)

/-- Rows accumulated so far stay a prefix under any further merging. -/
theorem foldl_mergePage_rows_prefix (qs : List PageResult) :
    ∀ (st : AggState), ∃ suf, (qs.foldl mergePage st).rows = st.rows ++ suf := by
  induction qs with
  | nil => intro st; exact ⟨[], by simp⟩
  | cons q qs ih =>
    intro st
    obtain ⟨s1, h1⟩ := mergePage_rows_prefix st q
    obtain ⟨s2, h2⟩ := ih (mergePage st q)
    exact ⟨s1 ++ s2, by simp only [List.foldl_cons, h2, h1, List.append_assoc]⟩

/-- A page whose result has non-empty columns AND a non-empty rows list,
arriving while columns are unset, sets the columns and appends its rows. -/
theorem mergePage_adopts (st : AggState) (p : PageResult) (t : TableJson)
    (hcols : st.columns = none) (hpt : p.table = some t)
    (hc : t.columns.isEmpty = false) (hr : t.rows.isEmpty = false) :
    (mergePage st p).columns = some t.columns ∧
    (mergePage st p).rows = st.rows ++ t.rows := by
  constructor <;> simp [mergePage, hpt, hr, hcols, hc]

/-- Claim C1 counterexample: page 1 supplies rows but no columns, page 2
supplies the non-empty columns ["C1", "C2"] with an empty rows list; the
claim predicts final columns ["C1", "C2"], but the merge of lines 142-148
leaves the final columns empty, because column adoption only runs when
the page result's rows list is non-empty. -/
theorem column_adoption_counterexample :
    (finalizeReport (mergePages
      [⟨[], some ⟨[], [["r1"]]⟩⟩, ⟨[], some ⟨["C1", "C2"], []⟩⟩])).columns = [] ∧
    (["C1", "C2"] : List String) ≠ [] := by
  constructor
  · rfl
  · decide

/-- Claim C1 amended: if no earlier page result has supplied columns and a
page result supplies non-empty columns AND a non-empty rows list, the
aggregator adopts those columns as the final columns (no later page can
change them), and rows contributed by earlier pages remain a prefix of
the final row sequence. -/
theorem column_adoption_requires_rows
    (ps qs : List PageResult) (p : PageResult) (t : TableJson)
    (hcols : (mergePages ps).columns = none)
    (hpt : p.table = some t) (hc : t.columns.isEmpty = false)
    (hr : t.rows.isEmpty = false) :
    (mergePages (ps ++ p :: qs)).columns = some t.columns ∧
    ∃ suf, (mergePages (ps ++ p :: qs)).rows = (mergePages ps).rows ++ suf := by
  have hsplit : mergePages (ps ++ p :: qs)
      = qs.foldl mergePage (mergePage (mergePages ps) p) := by
    simp [mergePages, List.foldl_append]
  obtain ⟨hA, hB⟩ := mergePage_adopts (mergePages ps) p t hcols hpt hc hr
  constructor
  · rw [hsplit]
    exact foldl_mergePage_columns_mono qs _ _ hA
  · rw [hsplit]
    obtain ⟨s2, h2⟩ := foldl_mergePage_rows_prefix qs (mergePage (mergePages ps) p)
    exact ⟨t.rows ++ s2, by rw [h2, hB, List.append_assoc]⟩

/-- Witness for the C1 amended theorem: page 1 has rows and no columns,
page 2 has columns and rows; the columns are adopted and page 1's rows
survive. -/
theorem column_adoption_requires_rows_witness :
    (mergePages ([⟨[], some ⟨[], [["r1"]]⟩⟩]
        ++ (⟨[], some ⟨["C1", "C2"], [["a", "b"]]⟩⟩ : PageResult) :: [])).columns
      = some ["C1", "C2"] ∧
    ∃ suf, (mergePages ([⟨[], some ⟨[], [["r1"]]⟩⟩]
        ++ (⟨[], some ⟨["C1", "C2"], [["a", "b"]]⟩⟩ : PageResult) :: [])).rows
      = (mergePages [⟨[], some ⟨[], [["r1"]]⟩⟩]).rows ++ suf :=
  column_adoption_requires_rows [⟨[], some ⟨[], [["r1"]]⟩⟩] []
    ⟨[], some ⟨["C1", "C2"], [["a", "b"]]⟩⟩ ⟨["C1", "C2"], [["a", "b"]]⟩
    rfl rfl rfl rfl

/-- Claim C4 counterexample: with the credential absent, the label-lookup
handler does NOT answer the fixed configuration message — it attempts the
oracle three times (the retry loop runs) and answers with its own generic
"AI processing failed" message; likewise the GD&T handler attempts the
oracle once and answers "Failed to analyze GD&T feature". -/
theorem missing_key_counterexample :
    get_value_for_label_handler false (fun _ _ => Except.ok "v") "doc" "HOSE_ID"
      = (.error ("AI processing failed: " ++ oracleFailureText OracleFailure.auth, 500), 3) ∧
    ("AI processing failed: " ++ oracleFailureText OracleFailure.auth
      ≠ "Gemini API key is not configured.") ∧
    (3 : Nat) ≠ 0 ∧
    analyze_gdt_at_point_handler false (Except.ok "feature") 3 1
      = ⟨.error ("Failed to analyze GD&T feature: " ++ oracleFailureText OracleFailure.auth, 500),
          true, 1⟩ := by
  refine ⟨rfl, by decide, by decide, ?_⟩
  rfl

/-- Claim C4 amended: only `generate_report_handler` short-circuits on the
missing credential with the fixed message and zero oracle calls
(lines 102-103); `get_value_for_label_handler` makes three oracle attempts
and answers its generic "AI processing failed" 500, and
`analyze_gdt_at_point_handler` makes one attempt and answers its generic
"Failed to analyze GD&T feature" 500. -/
theorem missing_key_per_endpoint
    (oracle1 : String → Nat → Except OracleFailure PageResult)
    (oracle2 : String → Nat → Except OracleFailure String)
    (oracle3 : Except OracleFailure String)
    (source : SourceKind) (pages : List (Option String)) (s l : String)
    (pc : Nat) (pn : Int)
    (hsp : source_pages_of source = some pages) (hne : pages.isEmpty = false)
    (hs : s.isEmpty = false) (hlo : 1 ≤ pn) (hhi : pn ≤ (pc : Int)) :
    generate_report_handler false oracle1 source
      = ⟨.error ("Gemini API key is not configured.", 500), 0⟩ ∧
    get_value_for_label_handler false oracle2 s l
      = (.error ("AI processing failed: " ++ oracleFailureText OracleFailure.auth, 500), 3) ∧
    analyze_gdt_at_point_handler false oracle3 pc pn
      = ⟨.error ("Failed to analyze GD&T feature: " ++ oracleFailureText OracleFailure.auth, 500),
          true, 1⟩ := by
  refine ⟨?_, ?_, ?_⟩
  · unfold generate_report_handler
    rw [hsp]
    simp only [hne, Bool.false_eq_true, if_false, Bool.not_false, if_true]
  · unfold get_value_for_label_handler
    simp only [hs, Bool.false_eq_true, if_false]
    rfl
  · unfold analyze_gdt_at_point_handler
    rw [if_neg (by omega : ¬(pn < 1 ∨ pn > (pc : Int)))]
    rfl

/-- Witness for the C4 amended theorem at concrete requests. -/
theorem missing_key_per_endpoint_witness :
    generate_report_handler false (fun _ _ => Except.ok ⟨[], none⟩) (SourceKind.plain "x")
      = ⟨.error ("Gemini API key is not configured.", 500), 0⟩ ∧
    get_value_for_label_handler false (fun _ _ => Except.ok "v") "doc" "HOSE_ID"
      = (.error ("AI processing failed: " ++ oracleFailureText OracleFailure.auth, 500), 3) ∧
    analyze_gdt_at_point_handler false (Except.ok "feature") 3 2
      = ⟨.error ("Failed to analyze GD&T feature: " ++ oracleFailureText OracleFailure.auth, 500),
          true, 1⟩ :=
  missing_key_per_endpoint (fun _ _ => Except.ok ⟨[], none⟩) (fun _ _ => Except.ok "v")
    (Except.ok "feature") (SourceKind.plain "x") [some "x"] "doc" "HOSE_ID" 3 2
    rfl rfl rfl (by decide) (by decide)

/-- Claim C7: a page number below 1 or above the page count is answered
with the client error ("Invalid page number", 400) before any crop
rasterization and before any oracle call. -/
theorem gdt_page_bounds_rejected (apiKeyPresent : Bool)
    (oracle : Except OracleFailure String) (page_count : Nat) (page_num : Int)
    (h : page_num < 1 ∨ page_num > (page_count : Int)) :
    analyze_gdt_at_point_handler apiKeyPresent oracle page_count page_num
      = ⟨.error ("Invalid page number", 400), false, 0⟩ := by
  unfold analyze_gdt_at_point_handler
  rw [if_pos h]

/-- Witness for C7: pages 0 and 4 of a 3-page document are both rejected
without rasterization or an oracle call. -/
theorem gdt_page_bounds_rejected_witness :
    analyze_gdt_at_point_handler true (Except.ok "feature") 3 0
      = ⟨.error ("Invalid page number", 400), false, 0⟩ ∧
    analyze_gdt_at_point_handler true (Except.ok "feature") 3 4
      = ⟨.error ("Invalid page number", 400), false, 0⟩ :=
  ⟨gdt_page_bounds_rejected true (Except.ok "feature") 3 0 (Or.inl (by decide)),
   gdt_page_bounds_rejected true (Except.ok "feature") 3 4 (Or.inr (by decide))⟩

/-- Claim C8: the concrete report exports to a document with the heading,
the text line "A: 1", and a grid whose header row is ["C1", "C2"] followed
by the one data row ["a", "b"]; in general a grid is present in the output
only when the input table has both non-empty columns and non-empty rows
(and then its header row is the column list); and a table-less report
still yields a valid minimal document with the heading. -/
theorem export_docx_correct :
    export_docx_handler ⟨[("A", "1")], some ⟨["C1", "C2"], [["a", "b"]]⟩⟩
      = .ok ⟨"Inspection Report", ["A: 1", ""], some ⟨["C1", "C2"], [["a", "b"]]⟩⟩ ∧
    (∀ (d : ExportIn) (doc : DocxDoc) (tb : DocxTable),
      export_docx_handler d = .ok doc → doc.table = some tb →
      ∃ t, d.table = some t ∧ t.columns.isEmpty = false ∧ t.rows.isEmpty = false ∧
        tb.headerRow = t.columns) ∧
    (∀ h : List (String × String), ∃ doc, export_docx_handler ⟨h, none⟩ = .ok doc ∧
      doc.heading = "Inspection Report" ∧ doc.table = none) := by
  refine ⟨by decide, ?_, ?_⟩
  · intro d doc tb hok htb
    obtain ⟨hdr, dt⟩ := d
    cases dt with
    | none =>
      rw [show export_docx_handler ⟨hdr, none⟩
          = .ok ⟨"Inspection Report",
              (if hdr.isEmpty then [] else hdr.map (fun kv => kv.1 ++ ": " ++ kv.2)) ++ [""],
              none⟩ from rfl] at hok
      rw [← Except.ok.inj hok] at htb
      cases htb
    | some t =>
      simp only [export_docx_handler] at hok
      by_cases hct : (!t.columns.isEmpty && !t.rows.isEmpty) = true
      · rw [if_pos hct] at hok
        simp only [Bool.and_eq_true, Bool.not_eq_true'] at hct
        cases hmap : t.rows.mapM (fillRow t.columns.length) with
        | ok rows2 =>
          rw [hmap] at hok
          rw [← Except.ok.inj hok] at htb
          refine ⟨t, rfl, hct.1, hct.2, ?_⟩
          rw [← Option.some.inj htb]
        | error e =>
          rw [hmap] at hok
          cases hok
      · rw [if_neg hct] at hok
        rw [← Except.ok.inj hok] at htb
        cases htb
  · intro h
    exact ⟨⟨"Inspection Report",
        (if h.isEmpty then [] else h.map (fun kv => kv.1 ++ ": " ++ kv.2)) ++ [""], none⟩,
      rfl, rfl, rfl⟩

/-- Witness for C8 applying the grid-only-when-non-empty part at the
concrete exported report. -/
theorem export_docx_correct_witness :
    ∃ t, (⟨[("A", "1")], some ⟨["C1", "C2"], [["a", "b"]]⟩⟩ : ExportIn).table = some t ∧
      t.columns.isEmpty = false ∧ t.rows.isEmpty = false ∧
      (⟨["C1", "C2"], [["a", "b"]]⟩ : DocxTable).headerRow = t.columns :=
  export_docx_correct.2.1 ⟨[("A", "1")], some ⟨["C1", "C2"], [["a", "b"]]⟩⟩
    ⟨"Inspection Report", ["A: 1", ""], some ⟨["C1", "C2"], [["a", "b"]]⟩⟩
    ⟨["C1", "C2"], [["a", "b"]]⟩ (by decide) rfl

set_option maxRecDepth 8192 in
/-- Every code point the permissive decoder emits is a valid Unicode
scalar value, whatever the input bytes. -/
theorem utf8_valid_aux : ∀ (bs : List Nat), ∀ c ∈ utf8DecodeIgnore bs,
    c < 0x110000 ∧ (c < 0xD800 ∨ 0xDFFF < c) := by
  intro bs
  induction bs using utf8DecodeIgnore.induct
  all_goals intro c hc
  all_goals rw [utf8DecodeIgnore.eq_def] at hc
  all_goals try dsimp only at hc
  all_goals repeat split at hc
  all_goals try omega
  all_goals try (simp only [List.not_mem_nil] at hc)
  all_goals try solve_by_elim
  all_goals simp only [List.mem_cons] at hc
  all_goals rcases hc with rfl | hc
  all_goals try solve_by_elim
  all_goals try omega
  all_goals simp only [cont3lo, cont3hi, cont4lo, cont4hi] at *
  all_goals (first | omega | (split_ifs at * <;> omega))

/-- On pure-ASCII input the permissive decoder is the identity. -/
theorem utf8_ascii_id : ∀ (bs : List Nat), (∀ b ∈ bs, b ≤ 0x7F) →
    utf8DecodeIgnore bs = bs := by
  intro bs
  induction bs with
  | nil => intro _; rw [utf8DecodeIgnore.eq_def]
  | cons b rest ih =>
    intro h
    have hb : b ≤ 0x7F := h b (by simp)
    rw [utf8DecodeIgnore.eq_def]
    dsimp only
    rw [if_pos hb, ih (fun x hx => h x (by simp [hx]))]

/-- Claim C9: the permissive UTF-8 decoding of line 93 is total and safe:
it always yields a (possibly empty) sequence of valid Unicode scalar
values, ASCII input decodes to itself, and invalid bytes are dropped
rather than raising — an invalid lead byte before an ASCII byte yields
just that ASCII character, and a lone invalid byte yields the empty
string. -/
theorem utf8_decode_ignore_safe :
    (∀ (bs : List Nat), ∀ c ∈ utf8DecodeIgnore bs,
      c < 0x110000 ∧ (c < 0xD800 ∨ 0xDFFF < c)) ∧
    (∀ (bs : List Nat), (∀ b ∈ bs, b ≤ 0x7F) → utf8DecodeIgnore bs = bs) ∧
    utf8DecodeIgnore [0xFF, 0x41] = [0x41] ∧
    utf8DecodeIgnore [0xFF] = [] := by
  refine ⟨utf8_valid_aux, utf8_ascii_id, ?_, ?_⟩
  · simp [utf8DecodeIgnore.eq_def]
  · simp [utf8DecodeIgnore.eq_def]

/-- Witness for C9: the scalar emitted from a partly invalid input is
valid, and a concrete ASCII input decodes to itself. -/
theorem utf8_decode_ignore_safe_witness :
    (65 < 0x110000 ∧ (65 < 0xD800 ∨ 0xDFFF < (65 : Nat))) ∧
    utf8DecodeIgnore [0x41, 0x42] = [0x41, 0x42] :=
  ⟨utf8_decode_ignore_safe.1 [0xFF, 0x41] 0x41 (by simp [utf8DecodeIgnore.eq_def]),
   utf8_decode_ignore_safe.2.1 [0x41, 0x42] (by decide)⟩

/-- Claim C10: a failed DOCX extraction puts the single element `None`
into `source_pages`; that one-element list defeats the emptiness check,
so (with the credential configured) the handler proceeds into the
aggregation loop, where `None.strip()` raises AttributeError, and the
request is answered with the generic AI-failure 500 — and the
extraction-failure response "Could not extract text from the source
file." is never produced on the DOCX path, whatever the extraction
result, credential state or oracle. -/
theorem docx_none_page_behavior :
    (∀ oracle : String → Nat → Except OracleFailure PageResult,
      generate_report_handler true oracle (SourceKind.docx none)
        = ⟨.error ("Failed to generate report from AI model.", 500), 0⟩) ∧
    (source_pages_of (SourceKind.docx none) = some [none] ∧
      ([none] : List (Option String)).isEmpty = false) ∧
    (∀ (apiKeyPresent : Bool) (oracle : String → Nat → Except OracleFailure PageResult)
        (r : Option String),
      (generate_report_handler apiKeyPresent oracle (SourceKind.docx r)).response
        ≠ .error ("Could not extract text from the source file.", 500)) := by
  refine ⟨fun oracle => rfl, ⟨rfl, rfl⟩, ?_⟩
  intro apiKeyPresent oracle r
  cases r with
  | none =>
    cases apiKeyPresent with
    | false =>
      rw [show (generate_report_handler false oracle (SourceKind.docx none)).response
          = .error ("Gemini API key is not configured.", 500) from rfl]
      decide
    | true =>
      rw [show (generate_report_handler true oracle (SourceKind.docx none)).response
          = .error ("Failed to generate report from AI model.", 500) from rfl]
      decide
  | some s =>
    cases apiKeyPresent with
    | false =>
      rw [show (generate_report_handler false oracle (SourceKind.docx (some s))).response
          = .error ("Gemini API key is not configured.", 500) from rfl]
      decide
    | true =>
      by_cases hb : pyIsBlank s = true
      · have hrun : runPages oracle [some s] aggInit = (.ok aggInit, 0) := by
          simp only [runPages, hb, if_true]
        rw [show generate_report_handler true oracle (SourceKind.docx (some s))
            = (match runPages oracle [some s] aggInit with
               | (.ok st, n) => ⟨.ok (finalizeReport st), n⟩
               | (.error _, n) => ⟨.error ("Failed to generate report from AI model.", 500), n⟩)
            from rfl, hrun]
        simp
      · have hrun : runPages oracle [some s] aggInit = (.error PyErr.indexError, 0) := by
          simp only [runPages, hb, Bool.false_eq_true, if_false, template_format_err]
        rw [show generate_report_handler true oracle (SourceKind.docx (some s))
            = (match runPages oracle [some s] aggInit with
               | (.ok st, n) => ⟨.ok (finalizeReport st), n⟩
               | (.error _, n) => ⟨.error ("Failed to generate report from AI model.", 500), n⟩)
            from rfl, hrun]
        simp only [HandlerResult.mk.injEq]
        decide

/-- Witness for C10 at a concrete non-blank DOCX extraction result. -/
theorem docx_none_page_behavior_witness :
    (generate_report_handler true (fun _ _ => Except.error OracleFailure.transient)
        (SourceKind.docx (some "abc"))).response
      ≠ .error ("Could not extract text from the source file.", 500) :=
  docx_none_page_behavior.2.2 true (fun _ _ => Except.error OracleFailure.transient) (some "abc")
